import Mathlib

/-!
Verification of the sales-dashboard query layer (src/streamlit-test.py).

The program is a Streamlit dashboard over a single `public.sales_data`
table. Every query function follows the same shape: acquire a pooled
connection (`get_connection` returns `None` on failure, after catching
`psycopg2.Error`), run a parameterized SQL query inside `try`, and
release the connection in `finally`. There is no `except` clause around
query execution, so a query failure propagates out of the function after
the connection is released.

The embedding models:
- the table as a list of `SalesRow` (dates as `Nat`, money as `ℚ`);
- each SQL query as a pure Lean function over that list;
- the connection lifecycle as explicit state passing over
  `Option PoolState` (`none` models the situation where pool
  construction failed at import time and the global name
  `connection_pool` was never bound);
- Python exceptions as the `PyResult.exn` constructor, carrying the
  exception class name.
-/

/-- One row of `public.sales_data` (§6 of the spec: external schema). -/
structure SalesRow where
  order_id : Nat
  order_date : Nat
  customer_id : Nat
  customer_name : String
  product_id : Nat
  product_names : String
  categories : String
  quantity : Nat
  price : ℚ
deriving Repr, DecidableEq

/-- Computed column `revenue = price * quantity` (never stored). -/
def revenue (r : SalesRow) : ℚ := r.price * r.quantity

/-- The WHERE clause shared by all filtered queries:
`order_date BETWEEN %s AND %s AND (%s = 'All Categories' OR categories = %s)`. -/
def rowMatches (sd ed : Nat) (cat : String) (r : SalesRow) : Bool :=
  (sd ≤ r.order_date && r.order_date ≤ ed) &&
    (cat == "All Categories" || r.categories == cat)

/-- Rows of the table selected by the shared WHERE clause. -/
def filtered (t : List SalesRow) (sd ed : Nat) (cat : String) : List SalesRow :=
  t.filter (rowMatches sd ed cat)

/-- SQL `SUM` aggregate: `NULL` on an empty set of rows, otherwise the sum. -/
def sqlSum (l : List ℚ) : Option ℚ :=
  match l with
  | [] => none
  | _ => some l.sum

/-- SQL `MIN` over a column: `NULL` on an empty table. -/
def sqlMinNat (l : List Nat) : Option Nat :=
  l.foldr (fun d acc => match acc with
    | none => some d
    | some m => some (Nat.min d m)) none

/-- SQL `MAX` over a column: `NULL` on an empty table. -/
def sqlMaxNat (l : List Nat) : Option Nat :=
  l.foldr (fun d acc => match acc with
    | none => some d
    | some m => some (Nat.max d m)) none

/-- `SELECT MIN(order_date), MAX(order_date) FROM public.sales_data`
(the one-row result of the query in `get_date_range`). -/
def dateRangeQuery (t : List SalesRow) : Option Nat × Option Nat :=
  (sqlMinNat (t.map (·.order_date)), sqlMaxNat (t.map (·.order_date)))

/-- Python `str.capitalize()`: first character uppercased, the rest
lowercased. -/
def pyCapitalize (s : String) : String :=
  match s.data with
  | [] => ""
  | c :: cs => String.mk (c.toUpper :: cs.map Char.toLower)

/-- The distinct stored category values, lexicographically sorted
(`SELECT DISTINCT categories ... ORDER BY categories`). -/
def sortedCats (t : List SalesRow) : List String :=
  List.insertionSort (· ≤ ·) ((t.map (·.categories)).dedup)

/-- Result list of `get_unique_categories` on a successful query:
the sorted distinct stored values, each run through Python
`str.capitalize()`. -/
def uniqueCategoriesQuery (t : List SalesRow) : List String :=
  (sortedCats t).map pyCapitalize

/-- The `category_totals` CTE of `get_dashboard_stats`: per-category
summed revenue over the filtered window. `GROUP BY` emits groups in an
implementation-defined order; the model uses first occurrence order. -/
def categoryTotals (t : List SalesRow) (sd ed : Nat) (cat : String) :
    List (String × ℚ) :=
  let rows := filtered t sd ed cat
  ((rows.map (·.categories)).dedup).map (fun c =>
    (c, ((rows.filter (fun r => r.categories == c)).map revenue).sum))

/-- `ORDER BY revenue DESC` on (label, revenue) pairs; a stable sort,
so ties keep the implementation-defined group order. -/
def sortByRevenueDesc (l : List (String × ℚ)) : List (String × ℚ) :=
  List.insertionSort (fun a b => b.2 ≤ a.2) l

/-- The `top_category` scalar subquery: highest-revenue category of the
filtered window, `NULL` when there are no rows. -/
def topCategoryQuery (t : List SalesRow) (sd ed : Nat) (cat : String) :
    Option String :=
  ((sortByRevenueDesc (categoryTotals t sd ed cat)).head?).map Prod.fst

/-- The single row fetched by `get_dashboard_stats`:
(total_revenue, total_orders, avg_order_value, top_category).
`SUM` over no rows is `NULL`, `COUNT` is 0, and the division producing
`avg_order_value` is strict in SQL: `NULL` dividend gives `NULL`. -/
def dashStatsQuery (t : List SalesRow) (sd ed : Nat) (cat : String) :
    Option ℚ × Nat × Option ℚ × Option String :=
  let rows := filtered t sd ed cat
  let rev := sqlSum (rows.map revenue)
  let orders := ((rows.map (·.order_id)).dedup).length
  (rev, orders, rev.map (fun x => x / (orders : ℚ)), topCategoryQuery t sd ed cat)

/-- Rows of `get_plot_data`: per-day summed revenue, ascending by date. -/
def plotQuery (t : List SalesRow) (sd ed : Nat) (cat : String) :
    List (Nat × ℚ) :=
  let rows := filtered t sd ed cat
  (List.insertionSort (· ≤ ·) ((rows.map (·.order_date)).dedup)).map (fun d =>
    (d, ((rows.filter (fun r => r.order_date == d)).map revenue).sum))

/-- Rows of `get_revenue_by_category`: per-category summed revenue,
descending by revenue. -/
def revenueByCategoryQuery (t : List SalesRow) (sd ed : Nat) (cat : String) :
    List (String × ℚ) :=
  sortByRevenueDesc (categoryTotals t sd ed cat)

/-- The `GROUP BY product_names` totals of `get_top_products`. -/
def productTotals (t : List SalesRow) (sd ed : Nat) (cat : String) :
    List (String × ℚ) :=
  let rows := filtered t sd ed cat
  ((rows.map (·.product_names)).dedup).map (fun p =>
    (p, ((rows.filter (fun r => r.product_names == p)).map revenue).sum))

/-- Rows of `get_top_products`: per-product summed revenue, descending,
truncated to 10 (`LIMIT 10`). -/
def topProductsQuery (t : List SalesRow) (sd ed : Nat) (cat : String) :
    List (String × ℚ) :=
  (sortByRevenueDesc (productTotals t sd ed cat)).take 10

/-- `ORDER BY order_date, order_id` of the raw-rows query. -/
def rawOrder (a b : SalesRow) : Prop :=
  a.order_date < b.order_date ∨
    (a.order_date = b.order_date ∧ a.order_id ≤ b.order_id)

instance : DecidableRel rawOrder := fun a b => by
  unfold rawOrder; infer_instance

/-- Rows of `get_raw_data`: every matching row with its computed revenue,
ascending by (order_date, order_id). -/
def rawDataQuery (t : List SalesRow) (sd ed : Nat) (cat : String) :
    List (SalesRow × ℚ) :=
  (List.insertionSort rawOrder (filtered t sd ed cat)).map (fun r => (r, revenue r))

/-- State of the `ThreadedConnectionPool`: how many idle connections it
holds, and how many `putconn` calls have been made (to express
"released exactly once"). -/
structure PoolState where
  idle : Nat
  releases : Nat
deriving Repr, DecidableEq

/-- `release_connection`: `putconn` returns the connection to the idle set. -/
def releasePool (p : PoolState) : PoolState :=
  { idle := p.idle + 1, releases := p.releases + 1 }

/-- Outcome of a Python call: a returned value, or an exception
(identified by its class name) propagating out. -/
inductive PyResult (α : Type) where
  | ok : α → PyResult α
  | exn : String → PyResult α
deriving Repr, DecidableEq

/-- The environment of one rendering pass: whether pool construction
at module load succeeded, whether `getconn` succeeds, whether query
execution on the cursor succeeds, and the current contents of
`public.sales_data`. -/
structure Env where
  poolOk : Bool
  acquireOk : Bool
  queryOk : Bool
  table : List SalesRow

/-- Module-level pool construction (lines 14-22): on `psycopg2.Error`
the handler calls `st.error` and the module keeps loading, but the
global name `connection_pool` is never bound — modelled as `none`. -/
def initPool (e : Env) : Option PoolState :=
  if e.poolOk then some { idle := 5, releases := 0 } else none

/-- `get_connection()`: referencing the unbound `connection_pool` raises
`NameError`; otherwise `getconn` either yields a connection (`ok true`,
one fewer idle) or fails with a caught `psycopg2.Error` / a falsy
connection, in which case the function reports `st.error` and returns
`None` (`ok false`). -/
def get_connection (e : Env) (ps : Option PoolState) :
    PyResult Bool × Option PoolState :=
  match ps with
  | none => (.exn "NameError", none)
  | some p =>
    if e.acquireOk = true ∧ 0 < p.idle then
      (.ok true, some { p with idle := p.idle - 1 })
    else
      (.ok false, some p)

/-- `get_date_range()`: `(None, None)` when no connection; otherwise the
MIN/MAX row, with the connection released in `finally` whether or not
the query raised. -/
def get_date_range (e : Env) (ps : Option PoolState) :
    PyResult (Option Nat × Option Nat) × Option PoolState :=
  match get_connection e ps with
  | (.exn s, q) => (.exn s, q)
  | (.ok false, q) => (.ok (none, none), q)
  | (.ok true, q) =>
    if e.queryOk = true then
      (.ok (dateRangeQuery e.table), q.map releasePool)
    else
      (.exn "psycopg2.Error", q.map releasePool)

/-- `get_unique_categories()`: `[]` when no connection; otherwise the
sorted distinct categories, capitalized. -/
def get_unique_categories (e : Env) (ps : Option PoolState) :
    PyResult (List String) × Option PoolState :=
  match get_connection e ps with
  | (.exn s, q) => (.exn s, q)
  | (.ok false, q) => (.ok [], q)
  | (.ok true, q) =>
    if e.queryOk = true then
      (.ok (uniqueCategoriesQuery e.table), q.map releasePool)
    else
      (.exn "psycopg2.Error", q.map releasePool)

/-- `get_dashboard_stats(start_date, end_date, category)`: Python `None`
when no connection (modelled `ok none`), otherwise the fetched
one-row aggregate. -/
def get_dashboard_stats (e : Env) (ps : Option PoolState)
    (sd ed : Nat) (cat : String) :
    PyResult (Option (Option ℚ × Nat × Option ℚ × Option String)) ×
      Option PoolState :=
  match get_connection e ps with
  | (.exn s, q) => (.exn s, q)
  | (.ok false, q) => (.ok none, q)
  | (.ok true, q) =>
    if e.queryOk = true then
      (.ok (some (dashStatsQuery e.table sd ed cat)), q.map releasePool)
    else
      (.exn "psycopg2.Error", q.map releasePool)

/-- A pandas DataFrame: a column index and a list of rows. The bare
`pd.DataFrame()` returned on acquisition failure has no columns. -/
structure DataFrame (α : Type) where
  columns : List String
  rows : List α
deriving Repr, DecidableEq

/-- `get_plot_data(start_date, end_date, category)`. -/
def get_plot_data (e : Env) (ps : Option PoolState)
    (sd ed : Nat) (cat : String) :
    PyResult (DataFrame (Nat × ℚ)) × Option PoolState :=
  match get_connection e ps with
  | (.exn s, q) => (.exn s, q)
  | (.ok false, q) => (.ok ⟨[], []⟩, q)
  | (.ok true, q) =>
    if e.queryOk = true then
      (.ok ⟨["date", "revenue"], plotQuery e.table sd ed cat⟩, q.map releasePool)
    else
      (.exn "psycopg2.Error", q.map releasePool)

/-- `get_revenue_by_category(start_date, end_date, category)`. -/
def get_revenue_by_category (e : Env) (ps : Option PoolState)
    (sd ed : Nat) (cat : String) :
    PyResult (DataFrame (String × ℚ)) × Option PoolState :=
  match get_connection e ps with
  | (.exn s, q) => (.exn s, q)
  | (.ok false, q) => (.ok ⟨[], []⟩, q)
  | (.ok true, q) =>
    if e.queryOk = true then
      (.ok ⟨["categories", "revenue"], revenueByCategoryQuery e.table sd ed cat⟩,
        q.map releasePool)
    else
      (.exn "psycopg2.Error", q.map releasePool)

/-- `get_top_products(start_date, end_date, category)`. -/
def get_top_products (e : Env) (ps : Option PoolState)
    (sd ed : Nat) (cat : String) :
    PyResult (DataFrame (String × ℚ)) × Option PoolState :=
  match get_connection e ps with
  | (.exn s, q) => (.exn s, q)
  | (.ok false, q) => (.ok ⟨[], []⟩, q)
  | (.ok true, q) =>
    if e.queryOk = true then
      (.ok ⟨["product_names", "revenue"], topProductsQuery e.table sd ed cat⟩,
        q.map releasePool)
    else
      (.exn "psycopg2.Error", q.map releasePool)

/-- Columns of the raw-rows result set, as reported by
`cur.description` (the SELECT list of the query). -/
def rawColumns : List String :=
  ["order_id", "order_date", "customer_id", "customer_name", "product_id",
   "product_names", "categories", "quantity", "price", "revenue"]

/-- `get_raw_data(start_date, end_date, category)`: columns are taken
from the cursor metadata, which carries the SELECT list even for an
empty result set. -/
def get_raw_data (e : Env) (ps : Option PoolState)
    (sd ed : Nat) (cat : String) :
    PyResult (DataFrame (SalesRow × ℚ)) × Option PoolState :=
  match get_connection e ps with
  | (.exn s, q) => (.exn s, q)
  | (.ok false, q) => (.ok ⟨[], []⟩, q)
  | (.ok true, q) =>
    if e.queryOk = true then
      (.ok ⟨rawColumns, rawDataQuery e.table sd ed cat⟩, q.map releasePool)
    else
      (.exn "psycopg2.Error", q.map releasePool)

/-- The controller's fallback values (line 259):
`total_revenue, total_orders, avg_order_value, top_category = 0, 0, 0, "N/A"`. -/
def dashDefaults : Option ℚ × Nat × Option ℚ × Option String :=
  (some 0, 0, some 0, some "N/A")

/-- Lines 255-259 of the controller: `if stats:` — Python `None` is
falsy, and any fetched 4-tuple (even a tuple of `None`s) is truthy, so
the fallback applies only when `get_dashboard_stats` returned `None`. -/
def controllerStats (stats : Option (Option ℚ × Nat × Option ℚ × Option String)) :
    Option ℚ × Nat × Option ℚ × Option String :=
  match stats with
  | none => dashDefaults
  | some row => row

/-- Applying the f-string format spec `:,.2f` (lines 266, 274): defined
on a number (the numeric value passes through to rendering), raises
`TypeError` when the value is Python `None`. -/
def fmtCurrency : Option ℚ → PyResult ℚ
  | none => .exn "TypeError"
  | some q => .ok q

/-! Concrete fixtures used by the scenario theorems and witnesses. -/

/-- Row of the spec's two-row scenario: order 1, 2024-01-01, category
"A", product "X", qty 2, price 10.00 (dates encoded as `Nat`). -/
def rowX : SalesRow :=
  { order_id := 1, order_date := 20240101, customer_id := 101,
    customer_name := "CustOne", product_id := 11, product_names := "X",
    categories := "A", quantity := 2, price := 10 }

/-- Row of the spec's two-row scenario: order 2, 2024-01-02, category
"B", product "Y", qty 1, price 5.00. -/
def rowY : SalesRow :=
  { order_id := 2, order_date := 20240102, customer_id := 102,
    customer_name := "CustTwo", product_id := 12, product_names := "Y",
    categories := "B", quantity := 1, price := 5 }

/-- The spec's two-row table. -/
def twoRowTable : List SalesRow := [rowX, rowY]

/-- Healthy environment over the two-row table. -/
def envOk : Env :=
  { poolOk := true, acquireOk := true, queryOk := true, table := twoRowTable }

/-- Environment whose query execution raises, over the two-row table. -/
def envQueryFail : Env :=
  { poolOk := true, acquireOk := true, queryOk := false, table := twoRowTable }

/-- Environment where pool construction failed at import time. -/
def envNoPool : Env :=
  { poolOk := false, acquireOk := true, queryOk := true, table := twoRowTable }

/-- Healthy environment over an empty table. -/
def envEmpty : Env :=
  { poolOk := true, acquireOk := true, queryOk := true, table := [] }

/-- A freshly constructed pool: 5 idle connections, no releases yet. -/
def pool5 : PoolState := { idle := 5, releases := 0 }

/-- A row whose stored category value collides with the no-filter
sentinel string. -/
def sentinelRow : SalesRow :=
  { order_id := 1, order_date := 0, customer_id := 1,
    customer_name := "CustA", product_id := 1, product_names := "P1",
    categories := "All Categories", quantity := 1, price := 10 }

/-- A second row in an ordinary category. -/
def rowB : SalesRow :=
  { order_id := 2, order_date := 0, customer_id := 2,
    customer_name := "CustB", product_id := 2, product_names := "P2",
    categories := "B", quantity := 1, price := 5 }

/-- Table containing a category literally named "All Categories". -/
def sentinelTable : List SalesRow := [sentinelRow, rowB]

/-- A row whose stored category is lowercase "electronics". -/
def lowerRow : SalesRow :=
  { order_id := 1, order_date := 5, customer_id := 1,
    customer_name := "CustC", product_id := 1, product_names := "P",
    categories := "electronics", quantity := 1, price := 3 }

/-- One-row table with a lowercase stored category. -/
def lowerTable : List SalesRow := [lowerRow]

/-- Claim C1: over the table containing exactly the two scenario rows,
`get_dashboard_stats` for the full date range with the "All Categories"
sentinel returns total revenue 25.00, distinct-order count 2, average
order value 12.50, and top category "A". -/
theorem dashboard_stats_two_row_scenario :
    (get_dashboard_stats envOk (initPool envOk) 20240101 20240102
        "All Categories").1
      = .ok (some (some 25, 2, some (25 / 2), some "A")) := by
  simp [get_dashboard_stats, get_connection, envOk, initPool, dashStatsQuery, filtered,
    rowMatches, twoRowTable, rowX, rowY, sqlSum, revenue, topCategoryQuery, categoryTotals,
    sortByRevenueDesc, List.insertionSort, List.orderedInsert]
  norm_num

/-- Claim C6 (code evaluation at the failing input): when pool
construction fails at import, the global `connection_pool` is never
bound, so every subsequent operation raises `NameError` out of
`get_connection` (not caught by `except psycopg2.Error`) instead of
returning its default — contradicting the degraded-mode contract. -/
theorem missing_pool_name_error :
    initPool envNoPool = none ∧
    (get_date_range envNoPool (initPool envNoPool)).1 = .exn "NameError" ∧
    (get_date_range envNoPool (initPool envNoPool)).1 ≠ .ok (none, none) ∧
    (get_unique_categories envNoPool (initPool envNoPool)).1 = .exn "NameError" ∧
    (get_dashboard_stats envNoPool (initPool envNoPool) 20240101 20240102
        "All Categories").1 = .exn "NameError" ∧
    (get_plot_data envNoPool (initPool envNoPool) 20240101 20240102
        "All Categories").1 = .exn "NameError" ∧
    (get_raw_data envNoPool (initPool envNoPool) 20240101 20240102
        "All Categories").1 = .exn "NameError" := by
  refine ⟨by decide, by decide, by decide, by decide, by decide, by decide, by decide⟩

/-- Claim C5 (code evaluation at the failing input): on an empty table
the date-range query returns no bounds and every tabular operation
returns a validly-shaped empty table with its known headers, but the
summary-statistics row fetched is `(NULL, 0, NULL, NULL)` — a truthy
Python tuple — so the controller's `if stats:` skips the
`0, 0, 0, "N/A"` fallback and the displayed revenue value is `None`,
whose `:,.2f` formatting raises `TypeError`. -/
theorem empty_table_controller_divergence :
    (get_date_range envEmpty (some pool5)).1 = .ok (none, none) ∧
    (get_dashboard_stats envEmpty (some pool5) 0 99 "All Categories").1
        = .ok (some (none, 0, none, none)) ∧
    controllerStats (some (none, 0, none, none)) = (none, 0, none, none) ∧
    controllerStats (some (none, 0, none, none)) ≠ dashDefaults ∧
    fmtCurrency (controllerStats (some (none, 0, none, none))).1
        = .exn "TypeError" ∧
    (get_plot_data envEmpty (some pool5) 0 99 "All Categories").1
        = .ok ⟨["date", "revenue"], []⟩ ∧
    (get_revenue_by_category envEmpty (some pool5) 0 99 "All Categories").1
        = .ok ⟨["categories", "revenue"], []⟩ ∧
    (get_top_products envEmpty (some pool5) 0 99 "All Categories").1
        = .ok ⟨["product_names", "revenue"], []⟩ ∧
    (get_raw_data envEmpty (some pool5) 0 99 "All Categories").1
        = .ok ⟨rawColumns, []⟩ := by
  refine ⟨by decide, by decide, by decide, by decide, by decide, by decide, by decide,
    by decide, by decide⟩


/-- Claim C2: when connection acquisition fails (the pool exists but
`getconn` raises a caught `psycopg2.Error` or yields no connection),
every Query Layer operation returns its empty/zero default instead of
raising. -/
theorem no_connection_defaults (e : Env) (p : PoolState)
    (sd ed : Nat) (cat : String)
    (h : ¬ (e.acquireOk = true ∧ 0 < p.idle)) :
    (get_date_range e (some p)).1 = .ok (none, none) ∧
    (get_unique_categories e (some p)).1 = .ok [] ∧
    (get_dashboard_stats e (some p) sd ed cat).1 = .ok none ∧
    (get_plot_data e (some p) sd ed cat).1 = .ok ⟨[], []⟩ ∧
    (get_revenue_by_category e (some p) sd ed cat).1 = .ok ⟨[], []⟩ ∧
    (get_top_products e (some p) sd ed cat).1 = .ok ⟨[], []⟩ ∧
    (get_raw_data e (some p) sd ed cat).1 = .ok ⟨[], []⟩ := by
  have hc : get_connection e (some p) = (.ok false, some p) := by
    simp [get_connection, if_neg h]
  refine ⟨?_, ?_, ?_, ?_, ?_, ?_, ?_⟩ <;>
    simp [get_date_range, get_unique_categories, get_dashboard_stats, get_plot_data,
      get_revenue_by_category, get_top_products, get_raw_data, hc]

/-- Environment whose `getconn` fails, over the two-row table. -/
def envAcqFail : Env :=
  { poolOk := true, acquireOk := false, queryOk := true, table := twoRowTable }

/-- Witness for C2 at a concrete input: pool of 5 idle connections,
`getconn` failing. -/
theorem no_connection_defaults_witness :
    (get_date_range envAcqFail (some pool5)).1 = .ok (none, none) ∧
    (get_unique_categories envAcqFail (some pool5)).1 = .ok [] ∧
    (get_dashboard_stats envAcqFail (some pool5) 20240101 20240102
        "All Categories").1 = .ok none ∧
    (get_plot_data envAcqFail (some pool5) 20240101 20240102
        "All Categories").1 = .ok ⟨[], []⟩ ∧
    (get_revenue_by_category envAcqFail (some pool5) 20240101 20240102
        "All Categories").1 = .ok ⟨[], []⟩ ∧
    (get_top_products envAcqFail (some pool5) 20240101 20240102
        "All Categories").1 = .ok ⟨[], []⟩ ∧
    (get_raw_data envAcqFail (some pool5) 20240101 20240102
        "All Categories").1 = .ok ⟨[], []⟩ :=
  no_connection_defaults envAcqFail pool5 20240101 20240102 "All Categories" (by decide)

/-- Claim C3: whenever a connection is successfully acquired, every
Query Layer operation releases it back to the pool exactly once on
every exit path — the `finally` block runs whether the query returned
normally or raised — so the idle count is restored and `putconn` is
called exactly once. -/
theorem release_exactly_once (e : Env) (p : PoolState)
    (sd ed : Nat) (cat : String)
    (hacq : e.acquireOk = true) (hidle : 0 < p.idle) :
    (get_date_range e (some p)).2 = some ⟨p.idle, p.releases + 1⟩ ∧
    (get_unique_categories e (some p)).2 = some ⟨p.idle, p.releases + 1⟩ ∧
    (get_dashboard_stats e (some p) sd ed cat).2 = some ⟨p.idle, p.releases + 1⟩ ∧
    (get_plot_data e (some p) sd ed cat).2 = some ⟨p.idle, p.releases + 1⟩ ∧
    (get_revenue_by_category e (some p) sd ed cat).2 = some ⟨p.idle, p.releases + 1⟩ ∧
    (get_top_products e (some p) sd ed cat).2 = some ⟨p.idle, p.releases + 1⟩ ∧
    (get_raw_data e (some p) sd ed cat).2 = some ⟨p.idle, p.releases + 1⟩ := by
  have hc : get_connection e (some p)
      = (.ok true, some { p with idle := p.idle - 1 }) := by
    simp [get_connection, hacq, hidle]
  have hrel : releasePool { p with idle := p.idle - 1 }
      = ⟨p.idle, p.releases + 1⟩ := by
    have hi : p.idle - 1 + 1 = p.idle := by omega
    simp [releasePool, hi]
  refine ⟨?_, ?_, ?_, ?_, ?_, ?_, ?_⟩ <;>
    simp [get_date_range, get_unique_categories, get_dashboard_stats, get_plot_data,
      get_revenue_by_category, get_top_products, get_raw_data, hc, hrel] <;>
    split <;> simp [hrel]

/-- Witness for C3 at a concrete input, on the exception path: query
execution fails, yet each operation's final pool has the idle count
restored and one more release recorded. -/
theorem release_exactly_once_witness :
    (get_date_range envQueryFail (some pool5)).2 = some ⟨5, 0 + 1⟩ ∧
    (get_unique_categories envQueryFail (some pool5)).2 = some ⟨5, 0 + 1⟩ ∧
    (get_dashboard_stats envQueryFail (some pool5) 20240101 20240102
        "All Categories").2 = some ⟨5, 0 + 1⟩ ∧
    (get_plot_data envQueryFail (some pool5) 20240101 20240102
        "All Categories").2 = some ⟨5, 0 + 1⟩ ∧
    (get_revenue_by_category envQueryFail (some pool5) 20240101 20240102
        "All Categories").2 = some ⟨5, 0 + 1⟩ ∧
    (get_top_products envQueryFail (some pool5) 20240101 20240102
        "All Categories").2 = some ⟨5, 0 + 1⟩ ∧
    (get_raw_data envQueryFail (some pool5) 20240101 20240102
        "All Categories").2 = some ⟨5, 0 + 1⟩ :=
  release_exactly_once envQueryFail pool5 20240101 20240102 "All Categories"
    rfl (by decide)

/-- Claim C4, counterexample to the claim as stated: with a connection
successfully acquired and the query raising, `get_plot_data` does not
yield its empty default — the exception propagates out of the
operation (there is no `except` clause, only `finally`). -/
theorem query_failure_not_defaulted_cex :
    (get_plot_data envQueryFail (some pool5) 20240101 20240102
        "All Categories").1 = .exn "psycopg2.Error" ∧
    (get_plot_data envQueryFail (some pool5) 20240101 20240102
        "All Categories").1 ≠ .ok ⟨["date", "revenue"], []⟩ ∧
    (get_plot_data envQueryFail (some pool5) 20240101 20240102
        "All Categories").1 ≠ .ok ⟨[], []⟩ ∧
    (get_raw_data envQueryFail (some pool5) 20240101 20240102
        "All Categories").1 = .exn "psycopg2.Error" := by
  refine ⟨by decide, by decide, by decide, by decide⟩

/-- Claim C4 as amended: if the underlying query fails after a
connection was obtained, the connection is still released (idle count
restored, one release recorded), but the exception propagates out of
every Query Layer operation instead of being converted to a default at
the point of occurrence. -/
theorem query_failure_released_but_raises (e : Env) (p : PoolState)
    (sd ed : Nat) (cat : String)
    (hacq : e.acquireOk = true) (hidle : 0 < p.idle)
    (hq : e.queryOk = false) :
    ((get_date_range e (some p)).1 = .exn "psycopg2.Error" ∧
      (get_date_range e (some p)).2 = some ⟨p.idle, p.releases + 1⟩) ∧
    ((get_unique_categories e (some p)).1 = .exn "psycopg2.Error" ∧
      (get_unique_categories e (some p)).2 = some ⟨p.idle, p.releases + 1⟩) ∧
    ((get_dashboard_stats e (some p) sd ed cat).1 = .exn "psycopg2.Error" ∧
      (get_dashboard_stats e (some p) sd ed cat).2 = some ⟨p.idle, p.releases + 1⟩) ∧
    ((get_plot_data e (some p) sd ed cat).1 = .exn "psycopg2.Error" ∧
      (get_plot_data e (some p) sd ed cat).2 = some ⟨p.idle, p.releases + 1⟩) ∧
    ((get_revenue_by_category e (some p) sd ed cat).1 = .exn "psycopg2.Error" ∧
      (get_revenue_by_category e (some p) sd ed cat).2 = some ⟨p.idle, p.releases + 1⟩) ∧
    ((get_top_products e (some p) sd ed cat).1 = .exn "psycopg2.Error" ∧
      (get_top_products e (some p) sd ed cat).2 = some ⟨p.idle, p.releases + 1⟩) ∧
    ((get_raw_data e (some p) sd ed cat).1 = .exn "psycopg2.Error" ∧
      (get_raw_data e (some p) sd ed cat).2 = some ⟨p.idle, p.releases + 1⟩) := by
  have hc : get_connection e (some p)
      = (.ok true, some { p with idle := p.idle - 1 }) := by
    simp [get_connection, hacq, hidle]
  have hrel : releasePool { p with idle := p.idle - 1 }
      = ⟨p.idle, p.releases + 1⟩ := by
    have hi : p.idle - 1 + 1 = p.idle := by omega
    simp [releasePool, hi]
  refine ⟨?_, ?_, ?_, ?_, ?_, ?_, ?_⟩ <;>
    simp [get_date_range, get_unique_categories, get_dashboard_stats, get_plot_data,
      get_revenue_by_category, get_top_products, get_raw_data, hc, hrel, hq]

/-- Witness for the amended C4 at a concrete input. -/
theorem query_failure_released_but_raises_witness :
    ((get_date_range envQueryFail (some pool5)).1 = .exn "psycopg2.Error" ∧
      (get_date_range envQueryFail (some pool5)).2 = some ⟨5, 0 + 1⟩) ∧
    ((get_unique_categories envQueryFail (some pool5)).1 = .exn "psycopg2.Error" ∧
      (get_unique_categories envQueryFail (some pool5)).2 = some ⟨5, 0 + 1⟩) ∧
    ((get_dashboard_stats envQueryFail (some pool5) 0 9 "B").1 = .exn "psycopg2.Error" ∧
      (get_dashboard_stats envQueryFail (some pool5) 0 9 "B").2 = some ⟨5, 0 + 1⟩) ∧
    ((get_plot_data envQueryFail (some pool5) 0 9 "B").1 = .exn "psycopg2.Error" ∧
      (get_plot_data envQueryFail (some pool5) 0 9 "B").2 = some ⟨5, 0 + 1⟩) ∧
    ((get_revenue_by_category envQueryFail (some pool5) 0 9 "B").1 = .exn "psycopg2.Error" ∧
      (get_revenue_by_category envQueryFail (some pool5) 0 9 "B").2 = some ⟨5, 0 + 1⟩) ∧
    ((get_top_products envQueryFail (some pool5) 0 9 "B").1 = .exn "psycopg2.Error" ∧
      (get_top_products envQueryFail (some pool5) 0 9 "B").2 = some ⟨5, 0 + 1⟩) ∧
    ((get_raw_data envQueryFail (some pool5) 0 9 "B").1 = .exn "psycopg2.Error" ∧
      (get_raw_data envQueryFail (some pool5) 0 9 "B").2 = some ⟨5, 0 + 1⟩) :=
  query_failure_released_but_raises envQueryFail pool5 0 9 "B" rfl (by decide) rfl

/-- An impossible date range satisfies no row: the shared WHERE clause
rejects every row when start_date > end_date. -/
lemma filtered_nil_of_reversed_range (t : List SalesRow) (sd ed : Nat)
    (cat : String) (h : ed < sd) : filtered t sd ed cat = [] := by
  rw [filtered, List.filter_eq_nil_iff]
  intro r _
  simp only [rowMatches, Bool.and_eq_true, decide_eq_true_eq]
  rintro ⟨⟨h1, h2⟩, -⟩
  omega

/-- Claim C7: for start_date > end_date, every filtered aggregation
returns its empty/zero result — the DataFrame operations return empty
tables and the dashboard aggregate is the empty-window row
(`NULL` revenue, 0 orders, `NULL` average, `NULL` top category). -/
theorem impossible_range_empty (e : Env) (p : PoolState)
    (sd ed : Nat) (cat : String)
    (hacq : e.acquireOk = true) (hidle : 0 < p.idle) (hq : e.queryOk = true)
    (hlt : ed < sd) :
    (get_dashboard_stats e (some p) sd ed cat).1 = .ok (some (none, 0, none, none)) ∧
    (get_plot_data e (some p) sd ed cat).1 = .ok ⟨["date", "revenue"], []⟩ ∧
    (get_revenue_by_category e (some p) sd ed cat).1
        = .ok ⟨["categories", "revenue"], []⟩ ∧
    (get_top_products e (some p) sd ed cat).1
        = .ok ⟨["product_names", "revenue"], []⟩ ∧
    (get_raw_data e (some p) sd ed cat).1 = .ok ⟨rawColumns, []⟩ := by
  have hc : get_connection e (some p)
      = (.ok true, some { p with idle := p.idle - 1 }) := by
    simp [get_connection, hacq, hidle]
  have hf := filtered_nil_of_reversed_range e.table sd ed cat hlt
  refine ⟨?_, ?_, ?_, ?_, ?_⟩ <;>
    simp [get_dashboard_stats, get_plot_data, get_revenue_by_category,
      get_top_products, get_raw_data, hc, hq, dashStatsQuery, plotQuery,
      revenueByCategoryQuery, topProductsQuery, rawDataQuery, categoryTotals,
      productTotals, topCategoryQuery, sortByRevenueDesc, hf, sqlSum,
      List.insertionSort]

/-- Witness for C7 at a concrete input: range 20240102..20240101 over
the two-row table. -/
theorem impossible_range_empty_witness :
    (get_dashboard_stats envOk (some pool5) 20240102 20240101
        "All Categories").1 = .ok (some (none, 0, none, none)) ∧
    (get_plot_data envOk (some pool5) 20240102 20240101
        "All Categories").1 = .ok ⟨["date", "revenue"], []⟩ ∧
    (get_revenue_by_category envOk (some pool5) 20240102 20240101
        "All Categories").1 = .ok ⟨["categories", "revenue"], []⟩ ∧
    (get_top_products envOk (some pool5) 20240102 20240101
        "All Categories").1 = .ok ⟨["product_names", "revenue"], []⟩ ∧
    (get_raw_data envOk (some pool5) 20240102 20240101
        "All Categories").1 = .ok ⟨rawColumns, []⟩ :=
  impossible_range_empty envOk pool5 20240102 20240101 "All Categories"
    rfl (by decide) rfl (by decide)

/-- Claim C9: on a successful query, `get_unique_categories` returns
the distinct stored category values, lexicographically sorted, each
presented via Python `str.capitalize()`; the pre-capitalization list is
sorted, duplicate-free, and carries exactly the table's category
values. -/
theorem unique_categories_sorted_capitalized (e : Env) (p : PoolState)
    (hacq : e.acquireOk = true) (hidle : 0 < p.idle) (hq : e.queryOk = true) :
    (get_unique_categories e (some p)).1 = .ok (uniqueCategoriesQuery e.table) ∧
    List.Sorted (· ≤ ·) (sortedCats e.table) ∧
    (sortedCats e.table).Nodup ∧
    (∀ c, c ∈ sortedCats e.table ↔ c ∈ e.table.map (fun r => r.categories)) ∧
    uniqueCategoriesQuery e.table = (sortedCats e.table).map pyCapitalize := by
  refine ⟨?_, ?_, ?_, ?_, rfl⟩
  · have hc : get_connection e (some p)
        = (.ok true, some { p with idle := p.idle - 1 }) := by
      simp [get_connection, hacq, hidle]
    simp [get_unique_categories, hc, hq]
  · exact List.sorted_insertionSort _ _
  · exact (List.perm_insertionSort _ _).nodup_iff.mpr (List.nodup_dedup _)
  · intro c
    rw [sortedCats, (List.perm_insertionSort _ _).mem_iff, List.mem_dedup]

/-- Witness for C9 at a concrete input: the two-row table yields
["A", "B"]. -/
theorem unique_categories_sorted_capitalized_witness :
    (get_unique_categories envOk (some pool5)).1
        = .ok (uniqueCategoriesQuery envOk.table) ∧
    List.Sorted (· ≤ ·) (sortedCats envOk.table) ∧
    (sortedCats envOk.table).Nodup ∧
    (∀ c, c ∈ sortedCats envOk.table ↔ c ∈ envOk.table.map (fun r => r.categories)) ∧
    uniqueCategoriesQuery envOk.table = (sortedCats envOk.table).map pyCapitalize :=
  unique_categories_sorted_capitalized envOk pool5 rfl (by decide) rfl

/-- Summing a mapped filter equals summing with mismatches zeroed. -/
lemma sum_map_filter (l : List SalesRow) (p : SalesRow → Bool)
    (f : SalesRow → ℚ) :
    ((l.filter p).map f).sum = (l.map (fun x => if p x then f x else 0)).sum := by
  induction l with
  | nil => rfl
  | cons x xs ih =>
    by_cases hx : p x = true
    · simp [List.filter_cons, hx, ih]
    · simp [List.filter_cons, hx, ih]

/-- Pointwise sums distribute over a mapped list. -/
lemma sum_map_add_q (t : List SalesRow) (f g : SalesRow → ℚ) :
    (t.map (fun r => f r + g r)).sum = (t.map f).sum + (t.map g).sum := by
  induction t with
  | nil => simp
  | cons x xs ih =>
    simp only [List.map_cons, List.sum_cons, ih]
    ring

/-- Double sums over two lists commute. -/
lemma sum_map_swap (L : List String) (t : List SalesRow)
    (g : String → SalesRow → ℚ) :
    (L.map (fun c => (t.map (g c)).sum)).sum
      = (t.map (fun r => (L.map (fun c => g c r)).sum)).sum := by
  induction L with
  | nil => simp
  | cons c cs ih =>
    simp only [List.map_cons, List.sum_cons, ih]
    rw [sum_map_add_q]

/-- Over a duplicate-free list containing `x`, a sum of indicator terms
collapses to the single matching value. -/
lemma sum_ite_eq_of_nodup (L : List String) (x : String) (v : ℚ)
    (hN : L.Nodup) (hx : x ∈ L) :
    (L.map (fun c => if x = c then v else 0)).sum = v := by
  induction L with
  | nil => cases hx
  | cons c cs ih =>
    rw [List.map_cons, List.sum_cons]
    rw [List.nodup_cons] at hN
    rcases List.mem_cons.mp hx with h | h
    · subst h
      rw [if_pos rfl]
      have h0 : (cs.map (fun d => if x = d then v else 0)).sum = 0 := by
        apply List.sum_eq_zero
        intro y hy
        rcases List.mem_map.mp hy with ⟨d, hd, rfl⟩
        have hxd : x ≠ d := by
          intro he
          rw [he] at hN
          exact hN.1 hd
        rw [if_neg hxd]
      rw [h0, add_zero]
    · have hxc : x ≠ c := by
        intro he
        rw [he] at h
        exact hN.1 h
      rw [if_neg hxc, zero_add]
      exact ih hN.2 h

/-- `SUM` read back with the 0 default is the plain sum. -/
lemma sqlSum_getD (l : List ℚ) : (sqlSum l).getD 0 = l.sum := by
  cases l <;> simp [sqlSum]

/-- With the sentinel, the WHERE clause reduces to the date test. -/
lemma rowMatches_sentinel (sd ed : Nat) (r : SalesRow) :
    rowMatches sd ed "All Categories" r
      = (sd ≤ r.order_date && r.order_date ≤ ed) := by
  simp [rowMatches]

/-- With a non-sentinel filter value, the WHERE clause is the date test
plus verbatim equality of the stored category. -/
lemma rowMatches_of_ne (sd ed : Nat) (cat : String) (r : SalesRow)
    (h : cat ≠ "All Categories") :
    rowMatches sd ed cat r
      = ((sd ≤ r.order_date && r.order_date ≤ ed) && (r.categories == cat)) := by
  have hb : (cat == "All Categories") = false := beq_eq_false_iff_ne.mpr h
  simp [rowMatches, hb]

/-- Claim C8 as amended: for tables in which no stored category value
equals the sentinel string "All Categories", total revenue under the
no-filter sentinel equals the sum, over the table's distinct categories,
of each individual category filter's total revenue. -/
theorem allcats_revenue_partition (t : List SalesRow) (sd ed : Nat)
    (hs : ∀ r ∈ t, r.categories ≠ "All Categories") :
    ((dashStatsQuery t sd ed "All Categories").1).getD 0
      = (((t.map (fun r => r.categories)).dedup).map
          (fun c => ((dashStatsQuery t sd ed c).1).getD 0)).sum := by
  have hfst : ∀ cat, (dashStatsQuery t sd ed cat).1
      = sqlSum ((filtered t sd ed cat).map revenue) := fun cat => rfl
  set D := (t.map (fun r => r.categories)).dedup with hD
  have hDne : ∀ c ∈ D, c ≠ "All Categories" := by
    intro c hc
    rw [hD, List.mem_dedup] at hc
    rcases List.mem_map.mp hc with ⟨r, hr, hrc⟩
    rw [← hrc]
    exact hs r hr
  have hC : ∀ c ∈ D, ((dashStatsQuery t sd ed c).1).getD 0
      = (t.map (fun r =>
          if (sd ≤ r.order_date && r.order_date ≤ ed) && (r.categories == c)
          then revenue r else 0)).sum := by
    intro c hc
    rw [hfst, sqlSum_getD, filtered, sum_map_filter]
    exact congrArg List.sum (List.map_congr_left
      (fun r _ => by rw [rowMatches_of_ne sd ed c r (hDne c hc)]))
  have key : ∀ r ∈ t,
      (D.map (fun c =>
          if (sd ≤ r.order_date && r.order_date ≤ ed) && (r.categories == c)
          then revenue r else 0)).sum
        = (if (sd ≤ r.order_date && r.order_date ≤ ed)
            then revenue r else 0) := by
    intro r hr
    by_cases hb : (sd ≤ r.order_date && r.order_date ≤ ed) = true
    · rw [if_pos hb]
      have hmap : D.map (fun c =>
            if (sd ≤ r.order_date && r.order_date ≤ ed) && (r.categories == c)
            then revenue r else 0)
          = D.map (fun c => if r.categories = c then revenue r else 0) := by
        apply List.map_congr_left
        intro c _
        rw [hb]
        simp [beq_iff_eq]
      rw [hmap]
      exact sum_ite_eq_of_nodup D r.categories (revenue r)
        (List.nodup_dedup _) (List.mem_dedup.mpr (List.mem_map_of_mem _ hr))
    · have hb2 : (sd ≤ r.order_date && r.order_date ≤ ed) = false :=
        Bool.eq_false_iff.mpr hb
      rw [if_neg hb]
      apply List.sum_eq_zero
      intro y hy
      rcases List.mem_map.mp hy with ⟨c, _, rfl⟩
      simp [hb2]
  calc ((dashStatsQuery t sd ed "All Categories").1).getD 0
      = (t.map (fun r => if rowMatches sd ed "All Categories" r
          then revenue r else 0)).sum := by
        rw [hfst, sqlSum_getD, filtered, sum_map_filter]
    _ = (t.map (fun r => if (sd ≤ r.order_date && r.order_date ≤ ed)
          then revenue r else 0)).sum :=
        congrArg List.sum (List.map_congr_left
          (fun r _ => by rw [rowMatches_sentinel]))
    _ = (t.map (fun r => (D.map (fun c =>
          if (sd ≤ r.order_date && r.order_date ≤ ed) && (r.categories == c)
          then revenue r else 0)).sum)).sum :=
        (congrArg List.sum (List.map_congr_left key)).symm
    _ = (D.map (fun c => (t.map (fun r =>
          if (sd ≤ r.order_date && r.order_date ≤ ed) && (r.categories == c)
          then revenue r else 0)).sum)).sum :=
        (sum_map_swap D t _).symm
    _ = (D.map (fun c => ((dashStatsQuery t sd ed c).1).getD 0)).sum :=
        (congrArg List.sum (List.map_congr_left (fun c hc => (hC c hc).symm)))

/-- Witness for the amended C8 at a concrete input: the two-row table,
full range. -/
theorem allcats_revenue_partition_witness :
    ((dashStatsQuery twoRowTable 20240101 20240102 "All Categories").1).getD 0
      = (((twoRowTable.map (fun r => r.categories)).dedup).map
          (fun c => ((dashStatsQuery twoRowTable 20240101 20240102 c).1).getD 0)).sum :=
  allcats_revenue_partition twoRowTable 20240101 20240102 (by decide)

/-- Claim C8, counterexample to the claim as stated: when a stored
category is literally named "All Categories", its filter is read as the
no-filter sentinel, so the per-category totals double-count: total
revenue with the sentinel is 15, but the per-category sum is 15 + 5. -/
theorem allcats_revenue_partition_cex :
    ¬ (((dashStatsQuery sentinelTable 0 0 "All Categories").1).getD 0
      = (((sentinelTable.map (fun r => r.categories)).dedup).map
          (fun c => ((dashStatsQuery sentinelTable 0 0 c).1).getD 0)).sum) := by
  simp [dashStatsQuery, filtered, rowMatches, sentinelTable, sentinelRow, rowB,
    sqlSum, revenue]

/-- Every value offered by the category selector is the capitalization
of some stored category value of the table. -/
lemma mem_uniqueCategories (t : List SalesRow) (c : String)
    (hc : c ∈ uniqueCategoriesQuery t) :
    ∃ r, r ∈ t ∧ c = pyCapitalize r.categories := by
  rcases List.mem_map.mp hc with ⟨s, hs, rfl⟩
  rw [sortedCats, (List.perm_insertionSort _ _).mem_iff, List.mem_dedup] at hs
  rcases List.mem_map.mp hs with ⟨r, hr, rfl⟩
  exact ⟨r, hr, rfl⟩

/-- Claim C10 as amended: when every stored category value is fixed by
Python capitalization, each selector value c round-trips — the shared
filter predicate for c selects exactly the in-range rows whose stored
category is verbatim c, and `get_raw_data`'s row set is exactly those
rows (sorted, with computed revenue). Without that proviso the
capitalized selector value need not match its originating rows. -/
theorem selector_roundtrip_when_capitalization_fixed (t : List SalesRow)
    (sd ed : Nat)
    (hcap : ∀ r ∈ t, pyCapitalize r.categories = r.categories)
    (c : String) (hc : c ∈ uniqueCategoriesQuery t) :
    filtered t sd ed c
        = t.filter (fun r => (sd ≤ r.order_date && r.order_date ≤ ed)
            && (r.categories == c)) ∧
    rawDataQuery t sd ed c
        = (List.insertionSort rawOrder
            (t.filter (fun r => (sd ≤ r.order_date && r.order_date ≤ ed)
              && (r.categories == c)))).map (fun r => (r, revenue r)) := by
  obtain ⟨r0, hr0, hceq⟩ := mem_uniqueCategories t c hc
  have hcc : c = r0.categories := hceq.trans (hcap r0 hr0)
  have hcne : c ≠ "All Categories" := by
    intro h
    have h2 := hcap r0 hr0
    rw [← hcc, h] at h2
    exact absurd h2 (by decide)
  have hfil : filtered t sd ed c
      = t.filter (fun r => (sd ≤ r.order_date && r.order_date ≤ ed)
          && (r.categories == c)) := by
    rw [filtered]
    apply List.filter_congr
    intro r _
    rw [rowMatches_of_ne sd ed c r hcne]
  exact ⟨hfil, by rw [rawDataQuery, hfil]⟩

/-- Witness for the amended C10 at a concrete input: the two-row table
(categories "A" and "B", both fixed by capitalization), selector value
"A". -/
theorem selector_roundtrip_witness :
    filtered twoRowTable 0 30000000 "A"
        = twoRowTable.filter (fun r => (0 ≤ r.order_date && r.order_date ≤ 30000000)
            && (r.categories == "A")) ∧
    rawDataQuery twoRowTable 0 30000000 "A"
        = (List.insertionSort rawOrder
            (twoRowTable.filter (fun r => (0 ≤ r.order_date && r.order_date ≤ 30000000)
              && (r.categories == "A")))).map (fun r => (r, revenue r)) :=
  selector_roundtrip_when_capitalization_fixed twoRowTable 0 30000000
    (by decide) "A" (by
      have h : uniqueCategoriesQuery twoRowTable = ["A", "B"] := by
        simp [uniqueCategoriesQuery, sortedCats, twoRowTable, rowX, rowY,
          List.insertionSort, List.orderedInsert, pyCapitalize]
        rw [if_pos (by decide)]
        decide
      rw [h]
      decide)

/-- Claim C10, counterexample to the claim as stated: for a table whose
only row stores category "electronics", the selector offers
"Electronics", yet filtering by that value matches no row at all — the
originating row (in range) is not returned, because the filter compares
the capitalized value verbatim against the lowercase stored one. -/
theorem selector_roundtrip_cex :
    uniqueCategoriesQuery lowerTable = ["Electronics"] ∧
    lowerRow ∈ lowerTable ∧
    (0 ≤ lowerRow.order_date && lowerRow.order_date ≤ 10) = true ∧
    pyCapitalize lowerRow.categories = "Electronics" ∧
    rowMatches 0 10 "Electronics" lowerRow = false ∧
    rawDataQuery lowerTable 0 10 "Electronics" = [] := by
  refine ⟨by decide, by decide, by decide, by decide, by decide, by decide⟩
